import Mathlib

/-!
# Loan-lifecycle chaincode: shallow embedding and verification

The repository contains two Go chaincode files concatenated in
`src/chaincode/chaincode.go`:

* a shim-based `LoanContract` (lines 1-349) with fields
  `Collateral`/`AuditHistory` and the operations `RequestLoan`, `ApproveLoan`,
  `DisburseLoan`, `RepayLoan`, `CheckLoanStatus`, `MarkAsDefaulted`,
  `AddCollateral`, `GetLoanHistory`, dispatched by `Invoke`;
* a contractapi-based `SmartContract` (lines 350-529) with the operations
  `RequestLoan`, `ApproveLoan`, `RepayLoan`, `QueryLoan`.

Both are embedded here, each in its own namespace, translated line by line
from the Go source.  Modelling choices:

* The world state (`stub.GetState` / `stub.PutState`) is modelled as an
  association list `List (String × Loan)`; `GetState` is `List.lookup`,
  `PutState` is `put` (overwrite-or-append).  JSON marshalling of a `Loan`
  never fails in Go and unmarshalling bytes produced by marshalling is the
  identity, so the store holds records directly and the
  marshal/unmarshal/corrupt-record branches collapse away.
* Go `float64` monetary values are modelled as exact rationals `ℚ`; the
  arithmetic the contract performs (subtraction, comparison with 0) is exact
  in `float64` for every concrete value appearing below.
* `strconv.ParseFloat` / `strconv.Atoi` are modelled on the plain decimal
  subset of their input language (optional sign, digits, optional fraction),
  which covers every numeric literal the contract is exercised with; an
  unparsable string yields `none` exactly as the Go call yields an error.
* `fmt.Sprintf "%f"` is modelled by `formatFloat` (six fractional digits),
  exact on the values used.
* A `peer.Response` is `Response`: `success (Option Loan)` (payload of
  `shim.Success`, the stored record for the read operations, `nil`
  otherwise) or `error msg` (`shim.Error`).
* Each operation is a pure function `Ledger → args → Response × Ledger`;
  an error return performs no `PutState` in the source, so it returns the
  ledger unchanged.  `PutState` itself is assumed to succeed (its failure
  branch in Go also leaves the store unchanged and returns an error).
-/

/-- Digits of a decimal string folded to a natural number. -/
def digitsToNat (cs : List Char) : Nat :=
  cs.foldl (fun a c => a * 10 + (c.toNat - 48)) 0

/-- Unsigned decimal fragment of `strconv.ParseFloat`: `digits`,
`digits.digits`, `digits.` or `.digits`, valued as an exact rational. -/
def parseDecCore (cs : List Char) : Option ℚ :=
  match cs.splitOn '.' with
  | [ip] =>
    if ip.isEmpty then none
    else if ip.all Char.isDigit then some (digitsToNat ip : ℚ)
    else none
  | [ip, fp] =>
    if ip.isEmpty && fp.isEmpty then none
    else if ip.all Char.isDigit && fp.all Char.isDigit then
      some ((digitsToNat ip : ℚ) + (digitsToNat fp : ℚ) / ((10 : ℚ) ^ fp.length))
    else none
  | _ => none

/-- Model of `strconv.ParseFloat` on plain decimal inputs (optional sign,
digits, optional fractional part); `none` models a parse error. -/
def parseFloat (s : String) : Option ℚ :=
  match s.toList with
  | [] => none
  | '+' :: rest => parseDecCore rest
  | '-' :: rest => (parseDecCore rest).map Neg.neg
  | cs => parseDecCore cs

/-- Model of `strconv.Atoi`: optional sign followed by digits. -/
def atoi (s : String) : Option Int :=
  match s.toList with
  | [] => none
  | '+' :: rest =>
    if rest.isEmpty then none
    else if rest.all Char.isDigit then some (digitsToNat rest : Int) else none
  | '-' :: rest =>
    if rest.isEmpty then none
    else if rest.all Char.isDigit then some (-(digitsToNat rest : Int)) else none
  | cs =>
    if cs.all Char.isDigit then some (digitsToNat cs : Int) else none

/-- Six-digit zero-padded fractional field used by `formatFloat`. -/
def padSix (n : Nat) : String :=
  let s := toString n
  String.mk (List.replicate (6 - s.length) '0') ++ s

/-- Floor of a rational as an integer (numerator floor-divided by
denominator), written explicitly so it reduces in the kernel. -/
def ratFloor (q : ℚ) : ℤ :=
  q.num.fdiv (q.den : ℤ)

/-- Model of Go `fmt.Sprintf "%f"` on a non-negative rational: integer part,
a dot, six fractional digits (round half up; exact on the values used). -/
def formatFloatNonneg (q : ℚ) : String :=
  let scaled : ℤ := ratFloor (q * 1000000 + 1 / 2)
  toString (scaled / 1000000) ++ "." ++ padSix (scaled % 1000000).toNat

/-- Model of Go `fmt.Sprintf "%f"` on a rational. -/
def formatFloat (q : ℚ) : String :=
  if q < 0 then "-" ++ formatFloatNonneg (-q) else formatFloatNonneg q

/-- The chaincode world state: loan records keyed by `loanId`.  `GetState`
is `List.lookup`, `PutState` is `put`. -/
def put {α : Type} : List (String × α) → String → α → List (String × α)
  | [], k, v => [(k, v)]
  | (k', v') :: rest, k, v =>
    if k' = k then (k, v) :: rest else (k', v') :: put rest k v

theorem lookup_put_self {α : Type} (st : List (String × α)) (k : String) (v : α) :
    (put st k v).lookup k = some v := by
  induction st with
  | nil => simp [put, List.lookup_cons]
  | cons hd tl ih =>
    rcases hd with ⟨a, b⟩
    by_cases h : a = k
    · subst h
      simp [put, List.lookup_cons]
    · rw [show put ((a, b) :: tl) k v = (a, b) :: put tl k v from by simp [put, h]]
      rw [List.lookup_cons]
      simp [beq_false_of_ne (Ne.symm h), ih]

theorem lookup_put_ne {α : Type} (st : List (String × α)) (k k' : String) (v : α)
    (h : k' ≠ k) : (put st k v).lookup k' = st.lookup k' := by
  induction st with
  | nil => simp [put, List.lookup_cons, List.lookup, beq_false_of_ne h]
  | cons hd tl ih =>
    rcases hd with ⟨a, b⟩
    by_cases ha : a = k
    · subst ha
      simp [put, List.lookup_cons, beq_false_of_ne h]
    · rw [show put ((a, b) :: tl) k v = (a, b) :: put tl k v from by simp [put, ha]]
      rw [List.lookup_cons, List.lookup_cons]
      cases hbeq : k' == a <;> simp [ih]

namespace LoanContract

/-- The `Loan` struct of the shim-based contract (chaincode.go lines 17-31). -/
structure Loan where
  LoanID : String
  BorrowerID : String
  LenderID : String
  Amount : ℚ
  InterestRate : ℚ
  Duration : Int
  Status : String
  DisbursementDate : String
  RepaymentDue : ℚ
  RemainingBalance : ℚ
  Collateral : String
  Defaulted : Bool
  AuditHistory : List String
deriving Repr, DecidableEq

/-- World state of the shim-based contract. -/
abbrev Ledger : Type := List (String × Loan)

/-- `peer.Response`: `shim.Success payload` or `shim.Error msg`. -/
inductive Response where
  | success : Option Loan → Response
  | error : String → Response
deriving Repr, DecidableEq

/-- `LoanContract.RequestLoan` (lines 62-98).  Note: the source performs no
existence check before `PutState`, so an existing record under `loanID` is
overwritten. -/
def RequestLoan (st : Ledger) (args : List String) : Response × Ledger :=
  match args with
  | [loanID, borrowerID, amountStr, durationStr] =>
    match parseFloat amountStr with
    | none => (.error "Invalid loan amount", st)
    | some amount =>
      match atoi durationStr with
      | none => (.error "Invalid loan duration", st)
      | some duration =>
        let loan : Loan :=
          { LoanID := loanID, BorrowerID := borrowerID, LenderID := ""
            Amount := amount, InterestRate := 0, Duration := duration
            Status := "Pending", DisbursementDate := "", RepaymentDue := 0
            RemainingBalance := amount, Collateral := "", Defaulted := false
            AuditHistory := [] }
        (.success none, put st loanID loan)
  | _ => (.error "Incorrect number of arguments. Expected 4", st)

/-- `LoanContract.ApproveLoan` (lines 101-139). -/
def ApproveLoan (st : Ledger) (args : List String) : Response × Ledger :=
  match args with
  | [loanID, lenderID] =>
    match st.lookup loanID with
    | none => (.error "Loan not found", st)
    | some loan =>
      if loan.Status ≠ "Pending" then (.error "Loan is not in Pending status", st)
      else
        let loan' := { loan with
          LenderID := lenderID, Status := "Approved"
          AuditHistory := loan.AuditHistory ++ ["Loan Approved"] }
        (.success none, put st loanID loan')
  | _ => (.error "Incorrect number of arguments. Expected 2", st)

/-- `LoanContract.DisburseLoan` (lines 142-180). -/
def DisburseLoan (st : Ledger) (args : List String) : Response × Ledger :=
  match args with
  | [loanID, disbursementDate] =>
    match st.lookup loanID with
    | none => (.error "Loan not found", st)
    | some loan =>
      if loan.Status ≠ "Approved" then (.error "Loan is not approved", st)
      else
        let loan' := { loan with
          Status := "Active", DisbursementDate := disbursementDate
          AuditHistory := loan.AuditHistory ++ ["Loan Disbursed"] }
        (.success none, put st loanID loan')
  | _ => (.error "Incorrect number of arguments. Expected 2", st)

/-- `LoanContract.RepayLoan` (lines 183-227).  The source subtracts the
repayment from `RemainingBalance` and sets `Status` to `"Repaid"` when the
result is `≤ 0`; it does NOT clamp the stored balance to `0`. -/
def RepayLoan (st : Ledger) (args : List String) : Response × Ledger :=
  match args with
  | [loanID, amountStr] =>
    match parseFloat amountStr with
    | none => (.error "Invalid repayment amount", st)
    | some repaymentAmount =>
      match st.lookup loanID with
      | none => (.error "Loan not found", st)
      | some loan =>
        if loan.Status ≠ "Active" then (.error "Loan is not active", st)
        else
          let bal := loan.RemainingBalance - repaymentAmount
          let loan' := { loan with
            RemainingBalance := bal
            Status := if bal ≤ 0 then "Repaid" else loan.Status
            AuditHistory := loan.AuditHistory ++
              ["Repayment of " ++ formatFloat repaymentAmount ++ " made"] }
          (.success none, put st loanID loan')
  | _ => (.error "Incorrect number of arguments. Expected 2", st)

/-- `LoanContract.CheckLoanStatus` (lines 230-243): read-only, returns the
stored record bytes. -/
def CheckLoanStatus (st : Ledger) (args : List String) : Response × Ledger :=
  match args with
  | [loanID] =>
    match st.lookup loanID with
    | none => (.error "Loan not found", st)
    | some loan => (.success (some loan), st)
  | _ => (.error "Incorrect number of arguments. Expected 1", st)

/-- `LoanContract.MarkAsDefaulted` (lines 246-286). -/
def MarkAsDefaulted (st : Ledger) (args : List String) : Response × Ledger :=
  match args with
  | [loanID] =>
    match st.lookup loanID with
    | none => (.error "Loan not found", st)
    | some loan =>
      if loan.Status ≠ "Active" then (.error "Loan is not active", st)
      else
        let loan' := { loan with
          Defaulted := true, Status := "Defaulted"
          AuditHistory := loan.AuditHistory ++ ["Loan Defaulted"] }
        (.success none, put st loanID loan')
  | _ => (.error "Incorrect number of arguments. Expected 1", st)

/-- `LoanContract.AddCollateral` (lines 289-326). -/
def AddCollateral (st : Ledger) (args : List String) : Response × Ledger :=
  match args with
  | [loanID, collateral] =>
    match st.lookup loanID with
    | none => (.error "Loan not found", st)
    | some loan =>
      if loan.Status ≠ "Pending" ∧ loan.Status ≠ "Approved" then
        (.error "Loan cannot accept collateral in the current state", st)
      else
        let loan' := { loan with
          Collateral := collateral
          AuditHistory := loan.AuditHistory ++
            ["Collateral added: " ++ collateral] }
        (.success none, put st loanID loan')
  | _ => (.error "Incorrect number of arguments. Expected 2", st)

/-- `LoanContract.GetLoanHistory` (lines 329-342): read-only, returns the
stored record bytes (identical body to `CheckLoanStatus`). -/
def GetLoanHistory (st : Ledger) (args : List String) : Response × Ledger :=
  match args with
  | [loanID] =>
    match st.lookup loanID with
    | none => (.error "Loan not found", st)
    | some loan => (.success (some loan), st)
  | _ => (.error "Incorrect number of arguments. Expected 1", st)

/-- `LoanContract.Invoke` (lines 37-59): name-based dispatch. -/
def Invoke (fn : String) (args : List String) (st : Ledger) : Response × Ledger :=
  match fn with
  | "RequestLoan" => RequestLoan st args
  | "ApproveLoan" => ApproveLoan st args
  | "DisburseLoan" => DisburseLoan st args
  | "RepayLoan" => RepayLoan st args
  | "CheckLoanStatus" => CheckLoanStatus st args
  | "MarkAsDefaulted" => MarkAsDefaulted st args
  | "AddCollateral" => AddCollateral st args
  | "GetLoanHistory" => GetLoanHistory st args
  | _ => (.error "Invalid function name", st)

end LoanContract

namespace SmartContract

/-- The `Loan` struct of the contractapi-based contract (chaincode.go lines
361-373): no `Collateral` and no `AuditHistory` field. -/
structure Loan where
  LoanID : String
  BorrowerID : String
  LenderID : String
  Amount : ℚ
  InterestRate : ℚ
  Duration : Int
  Status : String
  DisbursementDate : String
  RepaymentDue : ℚ
  RemainingBalance : ℚ
  Defaulted : Bool
deriving Repr, DecidableEq

/-- World state of the contractapi-based contract. -/
abbrev Ledger : Type := List (String × Loan)

/-- A contractapi method returns `error` (`some msg` here) or `nil`
(`none`); the resulting world state is paired alongside. -/
abbrev MethodResult : Type := Option String × Ledger

/-- `SmartContract.RequestLoan` (lines 381-414): rejects an already-existing
`loanID`, otherwise stores a fresh `Pending` loan whose `RemainingBalance`
equals `Amount` (this variant also stores `InterestRate`). -/
def RequestLoan (st : Ledger) (loanID borrowerID : String)
    (amount interestRate : ℚ) (duration : Int) : MethodResult :=
  match st.lookup loanID with
  | some _ => (some ("the loan with ID " ++ loanID ++ " already exists"), st)
  | none =>
    let loan : Loan :=
      { LoanID := loanID, BorrowerID := borrowerID, LenderID := ""
        Amount := amount, InterestRate := interestRate, Duration := duration
        Status := "Pending", DisbursementDate := "", RepaymentDue := 0
        RemainingBalance := amount, Defaulted := false }
    (none, put st loanID loan)

/-- `SmartContract.ApproveLoan` (lines 417-454). -/
def ApproveLoan (st : Ledger) (loanID lenderID : String) : MethodResult :=
  match st.lookup loanID with
  | none => (some ("loan with ID " ++ loanID ++ " not found"), st)
  | some loan =>
    if loan.Status ≠ "Pending" then
      (some ("loan with ID " ++ loanID ++ " is not in Pending status"), st)
    else
      (none, put st loanID { loan with LenderID := lenderID, Status := "Approved" })

/-- `SmartContract.RepayLoan` (lines 457-497): subtracts the repayment and,
when the result is `≤ 0`, sets `Status` to `"Repaid"` AND clamps
`RemainingBalance` to `0`. -/
def RepayLoan (st : Ledger) (loanID : String) (amount : ℚ) : MethodResult :=
  match st.lookup loanID with
  | none => (some ("loan with ID " ++ loanID ++ " not found"), st)
  | some loan =>
    if loan.Status ≠ "Active" then
      (some ("loan with ID " ++ loanID ++ " is not in Active status"), st)
    else
      let bal := loan.RemainingBalance - amount
      let loan' :=
        if bal ≤ 0 then { loan with Status := "Repaid", RemainingBalance := 0 }
        else { loan with RemainingBalance := bal }
      (none, put st loanID loan')

/-- `SmartContract.QueryLoan` (lines 500-517): read-only lookup. -/
def QueryLoan (st : Ledger) (loanID : String) : Except String Loan :=
  match st.lookup loanID with
  | none => .error ("loan with ID " ++ loanID ++ " not found")
  | some loan => .ok loan

end SmartContract

/-- The edges of the lifecycle graph
`Pending -> Approved -> Active -> (Repaid | Defaulted)`, reflexively closed
(an operation may leave the status where it is). -/
def stepAllowed (a b : String) : Bool :=
  a == b || (a == "Pending" && b == "Approved") || (a == "Approved" && b == "Active") ||
    (a == "Active" && b == "Repaid") || (a == "Active" && b == "Defaulted")

/- Batteries marks the `Rat` arithmetic operations `@[irreducible]`; the
concrete evaluations below need them to reduce. -/
attribute [local semireducible] Rat.add Rat.sub Rat.mul Rat.inv

namespace LoanContract

theorem RequestLoan_error (st : Ledger) (args : List String) (m : String) (st' : Ledger)
    (h : RequestLoan st args = (.error m, st')) : st' = st := by
  unfold RequestLoan at h
  rcases args with _ | ⟨a, _ | ⟨b, _ | ⟨c, _ | ⟨d, rest⟩⟩⟩⟩
  · injection h with h1 h2; exact h2.symm
  · injection h with h1 h2; exact h2.symm
  · injection h with h1 h2; exact h2.symm
  · injection h with h1 h2; exact h2.symm
  · cases rest with
    | cons e rest' => injection h with h1 h2; exact h2.symm
    | nil =>
      dsimp only at h
      cases hp : parseFloat c with
      | none => rw [hp] at h; injection h with h1 h2; exact h2.symm
      | some amount =>
        rw [hp] at h
        cases hd : atoi d with
        | none => rw [hd] at h; injection h with h1 h2; exact h2.symm
        | some dur => rw [hd] at h; simp at h

theorem RequestLoan_success (st : Ledger) (args : List String) (x : Option Loan)
    (st' : Ledger) (h : RequestLoan st args = (.success x, st')) :
    ∃ loanID borrowerID amountStr durationStr amount duration,
      args = [loanID, borrowerID, amountStr, durationStr] ∧
      parseFloat amountStr = some amount ∧ atoi durationStr = some duration ∧
      x = none ∧
      st' = put st loanID
        { LoanID := loanID, BorrowerID := borrowerID, LenderID := ""
          Amount := amount, InterestRate := 0, Duration := duration
          Status := "Pending", DisbursementDate := "", RepaymentDue := 0
          RemainingBalance := amount, Collateral := "", Defaulted := false
          AuditHistory := [] } := by
  unfold RequestLoan at h
  rcases args with _ | ⟨a, _ | ⟨b, _ | ⟨c, _ | ⟨d, rest⟩⟩⟩⟩
  · simp at h
  · simp at h
  · simp at h
  · simp at h
  · cases rest with
    | cons e rest' => simp at h
    | nil =>
      dsimp only at h
      cases hp : parseFloat c with
      | none => rw [hp] at h; simp at h
      | some amount =>
        rw [hp] at h
        cases hd : atoi d with
        | none => rw [hd] at h; simp at h
        | some dur =>
          rw [hd] at h
          injection h with h1 h2
          injection h1 with hx
          exact ⟨a, b, c, d, amount, dur, rfl, hp, hd, hx.symm, h2.symm⟩

theorem ApproveLoan_error (st : Ledger) (args : List String) (m : String) (st' : Ledger)
    (h : ApproveLoan st args = (.error m, st')) : st' = st := by
  unfold ApproveLoan at h
  rcases args with _ | ⟨a, _ | ⟨b, rest⟩⟩
  · injection h with h1 h2; exact h2.symm
  · injection h with h1 h2; exact h2.symm
  · cases rest with
    | cons c rest' => injection h with h1 h2; exact h2.symm
    | nil =>
      dsimp only at h
      cases hl : List.lookup a st with
      | none => rw [hl] at h; injection h with h1 h2; exact h2.symm
      | some loan =>
        rw [hl] at h
        by_cases hs : loan.Status = "Pending"
        · simp [hs] at h
        · simp only [ne_eq, hs, not_false_iff, if_true] at h
          injection h with h1 h2; exact h2.symm

theorem ApproveLoan_success (st : Ledger) (args : List String) (x : Option Loan)
    (st' : Ledger) (h : ApproveLoan st args = (.success x, st')) :
    ∃ loanID lenderID loan, args = [loanID, lenderID] ∧
      st.lookup loanID = some loan ∧ loan.Status = "Pending" ∧ x = none ∧
      st' = put st loanID { loan with
        LenderID := lenderID, Status := "Approved"
        AuditHistory := loan.AuditHistory ++ ["Loan Approved"] } := by
  unfold ApproveLoan at h
  rcases args with _ | ⟨a, _ | ⟨b, rest⟩⟩
  · simp at h
  · simp at h
  · cases rest with
    | cons c rest' => simp at h
    | nil =>
      dsimp only at h
      cases hl : List.lookup a st with
      | none => rw [hl] at h; simp at h
      | some loan =>
        rw [hl] at h
        by_cases hs : loan.Status = "Pending"
        · simp only [hs, ne_eq, not_true_eq_false, if_false] at h
          injection h with h1 h2
          injection h1 with hx
          exact ⟨a, b, loan, rfl, hl, hs, hx.symm, h2.symm⟩
        · simp [hs] at h

theorem DisburseLoan_error (st : Ledger) (args : List String) (m : String) (st' : Ledger)
    (h : DisburseLoan st args = (.error m, st')) : st' = st := by
  unfold DisburseLoan at h
  rcases args with _ | ⟨a, _ | ⟨b, rest⟩⟩
  · injection h with h1 h2; exact h2.symm
  · injection h with h1 h2; exact h2.symm
  · cases rest with
    | cons c rest' => injection h with h1 h2; exact h2.symm
    | nil =>
      dsimp only at h
      cases hl : List.lookup a st with
      | none => rw [hl] at h; injection h with h1 h2; exact h2.symm
      | some loan =>
        rw [hl] at h
        by_cases hs : loan.Status = "Approved"
        · simp [hs] at h
        · simp only [ne_eq, hs, not_false_iff, if_true] at h
          injection h with h1 h2; exact h2.symm

theorem DisburseLoan_success (st : Ledger) (args : List String) (x : Option Loan)
    (st' : Ledger) (h : DisburseLoan st args = (.success x, st')) :
    ∃ loanID date loan, args = [loanID, date] ∧
      st.lookup loanID = some loan ∧ loan.Status = "Approved" ∧ x = none ∧
      st' = put st loanID { loan with
        Status := "Active", DisbursementDate := date
        AuditHistory := loan.AuditHistory ++ ["Loan Disbursed"] } := by
  unfold DisburseLoan at h
  rcases args with _ | ⟨a, _ | ⟨b, rest⟩⟩
  · simp at h
  · simp at h
  · cases rest with
    | cons c rest' => simp at h
    | nil =>
      dsimp only at h
      cases hl : List.lookup a st with
      | none => rw [hl] at h; simp at h
      | some loan =>
        rw [hl] at h
        by_cases hs : loan.Status = "Approved"
        · simp only [hs, ne_eq, not_true_eq_false, if_false] at h
          injection h with h1 h2
          injection h1 with hx
          exact ⟨a, b, loan, rfl, hl, hs, hx.symm, h2.symm⟩
        · simp [hs] at h

theorem RepayLoan_error (st : Ledger) (args : List String) (m : String) (st' : Ledger)
    (h : RepayLoan st args = (.error m, st')) : st' = st := by
  unfold RepayLoan at h
  rcases args with _ | ⟨a, _ | ⟨b, rest⟩⟩
  · injection h with h1 h2; exact h2.symm
  · injection h with h1 h2; exact h2.symm
  · cases rest with
    | cons c rest' => injection h with h1 h2; exact h2.symm
    | nil =>
      dsimp only at h
      cases hp : parseFloat b with
      | none => rw [hp] at h; injection h with h1 h2; exact h2.symm
      | some r =>
        rw [hp] at h
        cases hl : List.lookup a st with
        | none => rw [hl] at h; injection h with h1 h2; exact h2.symm
        | some loan =>
          rw [hl] at h
          by_cases hs : loan.Status = "Active"
          · simp [hs] at h
          · simp only [ne_eq, hs, not_false_iff, if_true] at h
            injection h with h1 h2; exact h2.symm

theorem RepayLoan_success (st : Ledger) (args : List String) (x : Option Loan)
    (st' : Ledger) (h : RepayLoan st args = (.success x, st')) :
    ∃ loanID amountStr r loan, args = [loanID, amountStr] ∧
      parseFloat amountStr = some r ∧ st.lookup loanID = some loan ∧
      loan.Status = "Active" ∧ x = none ∧
      st' = put st loanID { loan with
        RemainingBalance := loan.RemainingBalance - r
        Status := if loan.RemainingBalance - r ≤ 0 then "Repaid" else loan.Status
        AuditHistory := loan.AuditHistory ++
          ["Repayment of " ++ formatFloat r ++ " made"] } := by
  unfold RepayLoan at h
  rcases args with _ | ⟨a, _ | ⟨b, rest⟩⟩
  · simp at h
  · simp at h
  · cases rest with
    | cons c rest' => simp at h
    | nil =>
      dsimp only at h
      cases hp : parseFloat b with
      | none => rw [hp] at h; simp at h
      | some r =>
        rw [hp] at h
        cases hl : List.lookup a st with
        | none => rw [hl] at h; simp at h
        | some loan =>
          rw [hl] at h
          dsimp only at h
          by_cases hs : loan.Status = "Active"
          · rw [if_neg (not_not_intro hs)] at h
            injection h with h1 h2
            injection h1 with hx
            exact ⟨a, b, r, loan, rfl, hp, hl, hs, hx.symm, h2.symm⟩
          · simp [hs] at h

theorem MarkAsDefaulted_error (st : Ledger) (args : List String) (m : String)
    (st' : Ledger) (h : MarkAsDefaulted st args = (.error m, st')) : st' = st := by
  unfold MarkAsDefaulted at h
  rcases args with _ | ⟨a, rest⟩
  · injection h with h1 h2; exact h2.symm
  · cases rest with
    | cons b rest' => injection h with h1 h2; exact h2.symm
    | nil =>
      dsimp only at h
      cases hl : List.lookup a st with
      | none => rw [hl] at h; injection h with h1 h2; exact h2.symm
      | some loan =>
        rw [hl] at h
        by_cases hs : loan.Status = "Active"
        · simp [hs] at h
        · simp only [ne_eq, hs, not_false_iff, if_true] at h
          injection h with h1 h2; exact h2.symm

theorem MarkAsDefaulted_success (st : Ledger) (args : List String) (x : Option Loan)
    (st' : Ledger) (h : MarkAsDefaulted st args = (.success x, st')) :
    ∃ loanID loan, args = [loanID] ∧
      st.lookup loanID = some loan ∧ loan.Status = "Active" ∧ x = none ∧
      st' = put st loanID { loan with
        Defaulted := true, Status := "Defaulted"
        AuditHistory := loan.AuditHistory ++ ["Loan Defaulted"] } := by
  unfold MarkAsDefaulted at h
  rcases args with _ | ⟨a, rest⟩
  · simp at h
  · cases rest with
    | cons b rest' => simp at h
    | nil =>
      dsimp only at h
      cases hl : List.lookup a st with
      | none => rw [hl] at h; simp at h
      | some loan =>
        rw [hl] at h
        by_cases hs : loan.Status = "Active"
        · simp only [hs, ne_eq, not_true_eq_false, if_false] at h
          injection h with h1 h2
          injection h1 with hx
          exact ⟨a, loan, rfl, hl, hs, hx.symm, h2.symm⟩
        · simp [hs] at h

theorem AddCollateral_error (st : Ledger) (args : List String) (m : String)
    (st' : Ledger) (h : AddCollateral st args = (.error m, st')) : st' = st := by
  unfold AddCollateral at h
  rcases args with _ | ⟨a, _ | ⟨b, rest⟩⟩
  · injection h with h1 h2; exact h2.symm
  · injection h with h1 h2; exact h2.symm
  · cases rest with
    | cons c rest' => injection h with h1 h2; exact h2.symm
    | nil =>
      dsimp only at h
      cases hl : List.lookup a st with
      | none => rw [hl] at h; injection h with h1 h2; exact h2.symm
      | some loan =>
        rw [hl] at h
        dsimp only at h
        by_cases hs : loan.Status ≠ "Pending" ∧ loan.Status ≠ "Approved"
        · rw [if_pos hs] at h
          injection h with h1 h2; exact h2.symm
        · rw [if_neg hs] at h
          simp at h

theorem AddCollateral_success (st : Ledger) (args : List String) (x : Option Loan)
    (st' : Ledger) (h : AddCollateral st args = (.success x, st')) :
    ∃ loanID collateral loan, args = [loanID, collateral] ∧
      st.lookup loanID = some loan ∧
      (loan.Status = "Pending" ∨ loan.Status = "Approved") ∧ x = none ∧
      st' = put st loanID { loan with
        Collateral := collateral
        AuditHistory := loan.AuditHistory ++
          ["Collateral added: " ++ collateral] } := by
  unfold AddCollateral at h
  rcases args with _ | ⟨a, _ | ⟨b, rest⟩⟩
  · simp at h
  · simp at h
  · cases rest with
    | cons c rest' => simp at h
    | nil =>
      dsimp only at h
      cases hl : List.lookup a st with
      | none => rw [hl] at h; simp at h
      | some loan =>
        rw [hl] at h
        dsimp only at h
        by_cases hs : loan.Status ≠ "Pending" ∧ loan.Status ≠ "Approved"
        · rw [if_pos hs] at h; simp at h
        · rw [if_neg hs] at h
          injection h with h1 h2
          injection h1 with hx
          refine ⟨a, b, loan, rfl, hl, ?_, hx.symm, h2.symm⟩
          by_cases hp : loan.Status = "Pending"
          · exact Or.inl hp
          · exact Or.inr (by_contra fun hap => hs ⟨hp, hap⟩)

theorem CheckLoanStatus_state (st : Ledger) (args : List String) :
    (CheckLoanStatus st args).2 = st := by
  unfold CheckLoanStatus
  rcases args with _ | ⟨a, rest⟩
  · rfl
  · cases rest with
    | cons b rest' => rfl
    | nil =>
      dsimp only
      cases hl : List.lookup a st with
      | none => rfl
      | some loan => rfl

theorem GetLoanHistory_state (st : Ledger) (args : List String) :
    (GetLoanHistory st args).2 = st := by
  unfold GetLoanHistory
  rcases args with _ | ⟨a, rest⟩
  · rfl
  · cases rest with
    | cons b rest' => rfl
    | nil =>
      dsimp only
      cases hl : List.lookup a st with
      | none => rfl
      | some loan => rfl

end LoanContract

/-- A loan record as `LoanContract.RequestLoan` creates it, with the given
status/amount/balance substituted: the fixture used by concrete scenarios. -/
def mkLoan (status : String) (amount bal : ℚ) : LoanContract.Loan :=
  { LoanID := "L1", BorrowerID := "B1", LenderID := "", Amount := amount
    InterestRate := 0, Duration := 12, Status := status, DisbursementDate := ""
    RepaymentDue := 0, RemainingBalance := bal, Collateral := "", Defaulted := false
    AuditHistory := [] }

/-- A `SmartContract` loan record fixture. -/
def mkSCLoan (status : String) (amount bal : ℚ) : SmartContract.Loan :=
  { LoanID := "L1", BorrowerID := "B1", LenderID := "", Amount := amount
    InterestRate := 0, Duration := 12, Status := status, DisbursementDate := ""
    RepaymentDue := 0, RemainingBalance := bal, Defaulted := false }

/-- Claim C5: on every failing input (wrong argument count, unparsable
number, missing loan, or wrong status) every `LoanContract` operation,
dispatched through `Invoke`, leaves the persisted ledger exactly as it was:
every error branch in the source returns before any `PutState`. -/
theorem C5_failure_leaves_state_unchanged (fn : String) (args : List String)
    (st : LoanContract.Ledger) (m : String) (st' : LoanContract.Ledger)
    (h : LoanContract.Invoke fn args st = (.error m, st')) : st' = st := by
  unfold LoanContract.Invoke at h
  split at h
  · exact LoanContract.RequestLoan_error _ _ _ _ h
  · exact LoanContract.ApproveLoan_error _ _ _ _ h
  · exact LoanContract.DisburseLoan_error _ _ _ _ h
  · exact LoanContract.RepayLoan_error _ _ _ _ h
  · have h2 := congrArg Prod.snd h
    exact ((LoanContract.CheckLoanStatus_state st args).symm.trans h2).symm
  · exact LoanContract.MarkAsDefaulted_error _ _ _ _ h
  · exact LoanContract.AddCollateral_error _ _ _ _ h
  · have h2 := congrArg Prod.snd h
    exact ((LoanContract.GetLoanHistory_state st args).symm.trans h2).symm
  · injection h with h1 h2
    exact h2.symm

/-- Claim C5 witness: `RepayLoan` on a `Pending` loan fails and the ledger
is unchanged. -/
theorem C5_witness :
    LoanContract.Invoke "RepayLoan" ["L1", "100"] [("L1", mkLoan "Pending" 1000 1000)] =
      (.error "Loan is not active", [("L1", mkLoan "Pending" 1000 1000)]) ∧
    ([("L1", mkLoan "Pending" 1000 1000)] : LoanContract.Ledger) =
      [("L1", mkLoan "Pending" 1000 1000)] :=
  ⟨by decide,
   C5_failure_leaves_state_unchanged "RepayLoan" ["L1", "100"]
     [("L1", mkLoan "Pending" 1000 1000)] "Loan is not active"
     [("L1", mkLoan "Pending" 1000 1000)] (by decide)⟩

/-- Claim C9: every operation is deterministic — `Invoke` is a pure function
of the operation name, the argument list and the prior ledger state, so two
executions with identical inputs produce identical responses and identical
resulting ledger state. -/
theorem C9_deterministic (fn fn' : String) (args args' : List String)
    (st st' : LoanContract.Ledger)
    (hfn : fn = fn') (hargs : args = args') (hst : st = st') :
    LoanContract.Invoke fn args st = LoanContract.Invoke fn' args' st' := by
  subst hfn; subst hargs; subst hst; rfl

/-- Claim C9 witness: two replays of the same `ApproveLoan` transaction from
the same state agree. -/
theorem C9_witness :
    LoanContract.Invoke "ApproveLoan" ["L1", "LEN1"] [("L1", mkLoan "Pending" 1000 1000)] =
      LoanContract.Invoke "ApproveLoan" ["L1", "LEN1"] [("L1", mkLoan "Pending" 1000 1000)] :=
  C9_deterministic _ _ _ _ _ _ rfl rfl rfl

/-- Claim C10: `CheckLoanStatus` and `GetLoanHistory` are extensionally
equal — on every argument list and ledger they return the same response and
the same (unchanged) ledger; when the loan exists the response is the stored
record, otherwise the same not-found error. -/
theorem C10_check_status_eq_history (st : LoanContract.Ledger) :
    (∀ args, LoanContract.CheckLoanStatus st args = LoanContract.GetLoanHistory st args ∧
      (LoanContract.CheckLoanStatus st args).2 = st ∧
      (LoanContract.GetLoanHistory st args).2 = st) ∧
    (∀ loanID loan, st.lookup loanID = some loan →
      LoanContract.CheckLoanStatus st [loanID] = (.success (some loan), st)) ∧
    (∀ loanID, st.lookup loanID = none →
      LoanContract.CheckLoanStatus st [loanID] = (.error "Loan not found", st)) := by
  refine ⟨fun args => ⟨rfl, LoanContract.CheckLoanStatus_state st args,
    LoanContract.GetLoanHistory_state st args⟩, fun loanID loan hl => ?_, fun loanID hl => ?_⟩
  · unfold LoanContract.CheckLoanStatus
    dsimp only
    rw [hl]
  · unfold LoanContract.CheckLoanStatus
    dsimp only
    rw [hl]

/-- Claim C10 witness: on a concrete one-loan ledger the stored record is
returned, and on a missing id the not-found error. -/
theorem C10_witness :
    LoanContract.CheckLoanStatus [("L1", mkLoan "Active" 1000 600)] ["L1"] =
      (.success (some (mkLoan "Active" 1000 600)), [("L1", mkLoan "Active" 1000 600)]) ∧
    LoanContract.CheckLoanStatus [("L1", mkLoan "Active" 1000 600)] ["L2"] =
      (.error "Loan not found", [("L1", mkLoan "Active" 1000 600)]) :=
  ⟨(C10_check_status_eq_history [("L1", mkLoan "Active" 1000 600)]).2.1 "L1"
      (mkLoan "Active" 1000 600) (by decide),
   (C10_check_status_eq_history [("L1", mkLoan "Active" 1000 600)]).2.2 "L2" (by decide)⟩

namespace LoanContract

theorem RequestLoan_eq (st : Ledger) (loanID borrowerID amountStr durationStr : String)
    (amount : ℚ) (duration : Int)
    (hp : parseFloat amountStr = some amount) (hd : atoi durationStr = some duration) :
    RequestLoan st [loanID, borrowerID, amountStr, durationStr] =
      (.success none, put st loanID
        { LoanID := loanID, BorrowerID := borrowerID, LenderID := ""
          Amount := amount, InterestRate := 0, Duration := duration
          Status := "Pending", DisbursementDate := "", RepaymentDue := 0
          RemainingBalance := amount, Collateral := "", Defaulted := false
          AuditHistory := [] }) := by
  unfold RequestLoan
  dsimp only
  rw [hp, hd]

theorem ApproveLoan_eq (st : Ledger) (loanID lenderID : String) (loan : Loan)
    (hl : st.lookup loanID = some loan) (hs : loan.Status = "Pending") :
    ApproveLoan st [loanID, lenderID] =
      (.success none, put st loanID { loan with
        LenderID := lenderID, Status := "Approved"
        AuditHistory := loan.AuditHistory ++ ["Loan Approved"] }) := by
  unfold ApproveLoan
  dsimp only
  rw [hl]
  dsimp only
  rw [if_neg (not_not_intro hs)]

theorem ApproveLoan_not_pending (st : Ledger) (loanID lenderID : String) (loan : Loan)
    (hl : st.lookup loanID = some loan) (hs : loan.Status ≠ "Pending") :
    ApproveLoan st [loanID, lenderID] = (.error "Loan is not in Pending status", st) := by
  unfold ApproveLoan
  dsimp only
  rw [hl]
  dsimp only
  rw [if_pos hs]

theorem DisburseLoan_eq (st : Ledger) (loanID date : String) (loan : Loan)
    (hl : st.lookup loanID = some loan) (hs : loan.Status = "Approved") :
    DisburseLoan st [loanID, date] =
      (.success none, put st loanID { loan with
        Status := "Active", DisbursementDate := date
        AuditHistory := loan.AuditHistory ++ ["Loan Disbursed"] }) := by
  unfold DisburseLoan
  dsimp only
  rw [hl]
  dsimp only
  rw [if_neg (not_not_intro hs)]

theorem RepayLoan_eq (st : Ledger) (loanID amountStr : String) (r : ℚ) (loan : Loan)
    (hp : parseFloat amountStr = some r)
    (hl : st.lookup loanID = some loan) (hs : loan.Status = "Active") :
    RepayLoan st [loanID, amountStr] =
      (.success none, put st loanID { loan with
        RemainingBalance := loan.RemainingBalance - r
        Status := if loan.RemainingBalance - r ≤ 0 then "Repaid" else loan.Status
        AuditHistory := loan.AuditHistory ++
          ["Repayment of " ++ formatFloat r ++ " made"] }) := by
  unfold RepayLoan
  dsimp only
  rw [hp, hl]
  dsimp only
  rw [if_neg (not_not_intro hs)]

end LoanContract

namespace SmartContract

theorem RequestLoan_present_eq (st : Ledger) (loanID borrowerID : String)
    (amount interestRate : ℚ) (duration : Int) (loan : Loan)
    (hl : st.lookup loanID = some loan) :
    RequestLoan st loanID borrowerID amount interestRate duration =
      (some ("the loan with ID " ++ loanID ++ " already exists"), st) := by
  unfold RequestLoan
  rw [hl]

theorem RequestLoan_absent_eq (st : Ledger) (loanID borrowerID : String)
    (amount interestRate : ℚ) (duration : Int)
    (hl : st.lookup loanID = none) :
    RequestLoan st loanID borrowerID amount interestRate duration =
      (none, put st loanID
        { LoanID := loanID, BorrowerID := borrowerID, LenderID := ""
          Amount := amount, InterestRate := interestRate, Duration := duration
          Status := "Pending", DisbursementDate := "", RepaymentDue := 0
          RemainingBalance := amount, Defaulted := false }) := by
  unfold RequestLoan
  rw [hl]

theorem SCApproveLoan_eq (st : Ledger) (loanID lenderID : String) (loan : Loan)
    (hl : st.lookup loanID = some loan) (hs : loan.Status = "Pending") :
    ApproveLoan st loanID lenderID =
      (none, put st loanID { loan with LenderID := lenderID, Status := "Approved" }) := by
  unfold ApproveLoan
  rw [hl]
  dsimp only
  rw [if_neg (not_not_intro hs)]

theorem SCApproveLoan_not_pending (st : Ledger) (loanID lenderID : String) (loan : Loan)
    (hl : st.lookup loanID = some loan) (hs : loan.Status ≠ "Pending") :
    ApproveLoan st loanID lenderID =
      (some ("loan with ID " ++ loanID ++ " is not in Pending status"), st) := by
  unfold ApproveLoan
  rw [hl]
  dsimp only
  rw [if_pos hs]

theorem SCRepayLoan_eq (st : Ledger) (loanID : String) (r : ℚ) (loan : Loan)
    (hl : st.lookup loanID = some loan) (hs : loan.Status = "Active") :
    RepayLoan st loanID r =
      (none, put st loanID
        (if loan.RemainingBalance - r ≤ 0 then
          { loan with Status := "Repaid", RemainingBalance := 0 }
        else { loan with RemainingBalance := loan.RemainingBalance - r })) := by
  unfold RepayLoan
  rw [hl]
  dsimp only
  rw [if_neg (not_not_intro hs)]

end SmartContract

/-- Claim C7: for an existing loan whose status is `Active`, `Repaid` or
`Defaulted`, `AddCollateral` fails with the invalid-state error and leaves
the ledger (hence the collateral field) unchanged; it succeeds, setting
`Collateral`, exactly when the status is `Pending` or `Approved`. -/
theorem C7_collateral_guard (st : LoanContract.Ledger) (loanID collateral : String)
    (loan : LoanContract.Loan) (hl : st.lookup loanID = some loan) :
    ((loan.Status = "Active" ∨ loan.Status = "Repaid" ∨ loan.Status = "Defaulted") →
      LoanContract.AddCollateral st [loanID, collateral] =
        (.error "Loan cannot accept collateral in the current state", st)) ∧
    ((loan.Status = "Pending" ∨ loan.Status = "Approved") →
      LoanContract.AddCollateral st [loanID, collateral] =
        (.success none, put st loanID { loan with
          Collateral := collateral
          AuditHistory := loan.AuditHistory ++ ["Collateral added: " ++ collateral] })) ∧
    (∀ x st', LoanContract.AddCollateral st [loanID, collateral] = (.success x, st') →
      loan.Status = "Pending" ∨ loan.Status = "Approved") := by
  refine ⟨fun hterm => ?_, fun hpa => ?_, fun x st' h => ?_⟩
  · unfold LoanContract.AddCollateral
    dsimp only
    rw [hl]
    dsimp only
    rw [if_pos ?_]
    rcases hterm with h | h | h <;> exact ⟨by simp [h], by simp [h]⟩
  · unfold LoanContract.AddCollateral
    dsimp only
    rw [hl]
    dsimp only
    rw [if_neg ?_]
    rcases hpa with h | h
    · exact fun hc => hc.1 h
    · exact fun hc => hc.2 h
  · obtain ⟨loanID', coll', loan', heq, hl', hpa, -, -⟩ :=
      LoanContract.AddCollateral_success st [loanID, collateral] x st' h
    injection heq with e1 e2
    subst e1
    rw [hl] at hl'
    injection hl' with e3
    rw [e3]
    exact hpa

/-- Claim C7 witness: `AddCollateral` fails on an `Active` loan and succeeds
on a `Pending` loan. -/
theorem C7_witness :
    LoanContract.AddCollateral [("L1", mkLoan "Active" 1000 600)] ["L1", "house"] =
      (.error "Loan cannot accept collateral in the current state",
        [("L1", mkLoan "Active" 1000 600)]) ∧
    LoanContract.AddCollateral [("L1", mkLoan "Pending" 1000 1000)] ["L1", "house"] =
      (.success none, put [("L1", mkLoan "Pending" 1000 1000)] "L1"
        { mkLoan "Pending" 1000 1000 with
          Collateral := "house"
          AuditHistory := ["Collateral added: " ++ "house"] }) :=
  ⟨(C7_collateral_guard [("L1", mkLoan "Active" 1000 600)] "L1" "house"
      (mkLoan "Active" 1000 600) (by decide)).1 (Or.inl (by decide)),
   (C7_collateral_guard [("L1", mkLoan "Pending" 1000 1000)] "L1" "house"
      (mkLoan "Pending" 1000 1000) (by decide)).2.1 (Or.inl (by decide))⟩

/-- Claim C8: on a loan freshly created by `RequestLoan`, a first
`ApproveLoan` succeeds, storing the lender id and status `Approved`, and an
immediately repeated `ApproveLoan` fails with the invalid-state error and
leaves the state of the first call unchanged — in both the shim-based
`LoanContract` (with its audit entry) and the contractapi `SmartContract`. -/
theorem C8_approve_twice (st : LoanContract.Ledger)
    (loanID borrowerID amountStr durationStr lenderID : String)
    (amount : ℚ) (duration : Int)
    (hp : parseFloat amountStr = some amount) (hd : atoi durationStr = some duration)
    (sst : SmartContract.Ledger) (sid sborrower slender : String)
    (samt sir : ℚ) (sdur : Int) (habsent : sst.lookup sid = none) :
    (∃ st1 st2 loan1,
      LoanContract.RequestLoan st [loanID, borrowerID, amountStr, durationStr] =
        (.success none, st1) ∧
      LoanContract.ApproveLoan st1 [loanID, lenderID] = (.success none, st2) ∧
      st2.lookup loanID = some loan1 ∧
      loan1.Status = "Approved" ∧ loan1.LenderID = lenderID ∧
      LoanContract.ApproveLoan st2 [loanID, lenderID] =
        (.error "Loan is not in Pending status", st2)) ∧
    (∃ s1 s2 loan2,
      SmartContract.RequestLoan sst sid sborrower samt sir sdur = (none, s1) ∧
      SmartContract.ApproveLoan s1 sid slender = (none, s2) ∧
      s2.lookup sid = some loan2 ∧
      loan2.Status = "Approved" ∧ loan2.LenderID = slender ∧
      SmartContract.ApproveLoan s2 sid slender =
        (some ("loan with ID " ++ sid ++ " is not in Pending status"), s2)) := by
  constructor
  · obtain hReq := LoanContract.RequestLoan_eq st loanID borrowerID amountStr durationStr
      amount duration hp hd
    set fresh : LoanContract.Loan :=
      { LoanID := loanID, BorrowerID := borrowerID, LenderID := ""
        Amount := amount, InterestRate := 0, Duration := duration
        Status := "Pending", DisbursementDate := "", RepaymentDue := 0
        RemainingBalance := amount, Collateral := "", Defaulted := false
        AuditHistory := [] } with hfresh
    have hlook1 : (put st loanID fresh).lookup loanID = some fresh :=
      lookup_put_self st loanID fresh
    have hApp := LoanContract.ApproveLoan_eq (put st loanID fresh) loanID lenderID
      fresh hlook1 rfl
    set loan1 : LoanContract.Loan := { fresh with
      LenderID := lenderID, Status := "Approved"
      AuditHistory := fresh.AuditHistory ++ ["Loan Approved"] } with hloan1
    have hlook2 : (put (put st loanID fresh) loanID loan1).lookup loanID = some loan1 :=
      lookup_put_self (put st loanID fresh) loanID loan1
    have hApp2 := LoanContract.ApproveLoan_not_pending
      (put (put st loanID fresh) loanID loan1) loanID lenderID loan1 hlook2
      (by rw [hloan1]; exact fun e => by simp at e)
    exact ⟨put st loanID fresh, put (put st loanID fresh) loanID loan1, loan1,
      hReq, hApp, hlook2, rfl, rfl, hApp2⟩
  · obtain hReq := SmartContract.RequestLoan_absent_eq sst sid sborrower samt sir sdur habsent
    set fresh : SmartContract.Loan :=
      { LoanID := sid, BorrowerID := sborrower, LenderID := ""
        Amount := samt, InterestRate := sir, Duration := sdur
        Status := "Pending", DisbursementDate := "", RepaymentDue := 0
        RemainingBalance := samt, Defaulted := false } with hfresh
    have hlook1 : (put sst sid fresh).lookup sid = some fresh :=
      lookup_put_self sst sid fresh
    have hApp := SmartContract.SCApproveLoan_eq (put sst sid fresh) sid slender fresh hlook1 rfl
    set loan2 : SmartContract.Loan :=
      { fresh with LenderID := slender, Status := "Approved" } with hloan2
    have hlook2 : (put (put sst sid fresh) sid loan2).lookup sid = some loan2 :=
      lookup_put_self (put sst sid fresh) sid loan2
    have hApp2 := SmartContract.SCApproveLoan_not_pending
      (put (put sst sid fresh) sid loan2) sid slender loan2 hlook2
      (by rw [hloan2]; exact fun e => by simp at e)
    exact ⟨put sst sid fresh, put (put sst sid fresh) sid loan2, loan2,
      hReq, hApp, hlook2, rfl, rfl, hApp2⟩

/-- Claim C8 witness: the concrete double-approval on loan `L1`. -/
theorem C8_witness :
    parseFloat "1000" = some 1000 ∧ atoi "12" = some 12 ∧
    (List.lookup "L1" ([] : SmartContract.Ledger) = none) ∧
    ((∃ st1 st2 loan1,
      LoanContract.RequestLoan [] ["L1", "B1", "1000", "12"] = (.success none, st1) ∧
      LoanContract.ApproveLoan st1 ["L1", "LEN1"] = (.success none, st2) ∧
      st2.lookup "L1" = some loan1 ∧
      loan1.Status = "Approved" ∧ loan1.LenderID = "LEN1" ∧
      LoanContract.ApproveLoan st2 ["L1", "LEN1"] =
        (.error "Loan is not in Pending status", st2)) ∧
    (∃ s1 s2 loan2,
      SmartContract.RequestLoan [] "L1" "B1" 1000 0 12 = (none, s1) ∧
      SmartContract.ApproveLoan s1 "L1" "LEN1" = (none, s2) ∧
      s2.lookup "L1" = some loan2 ∧
      loan2.Status = "Approved" ∧ loan2.LenderID = "LEN1" ∧
      SmartContract.ApproveLoan s2 "L1" "LEN1" =
        (some ("loan with ID " ++ "L1" ++ " is not in Pending status"), s2))) :=
  ⟨by decide, by decide, by decide,
   C8_approve_twice [] "L1" "B1" "1000" "12" "LEN1" 1000 12 (by decide) (by decide)
     [] "L1" "B1" "LEN1" 1000 0 12 (by decide)⟩

/-- One successful transition appended exactly one audit entry for the
touched loan and left every other record untouched. -/
def auditAppends (st st' : LoanContract.Ledger) (loanID entry : String) : Prop :=
  ∃ loan loan', st.lookup loanID = some loan ∧ st'.lookup loanID = some loan' ∧
    loan'.AuditHistory = loan.AuditHistory ++ [entry] ∧
    ∀ k, k ≠ loanID → st'.lookup k = st.lookup k

/-- The end-to-end scenario ledger:
`RequestLoan("L1","B1",5000,12)`, `ApproveLoan("L1","LEN1")`,
`DisburseLoan("L1","2024-01-01")`, `RepayLoan("L1",5000)`. -/
def e2eState : LoanContract.Ledger :=
  (LoanContract.RepayLoan
    (LoanContract.DisburseLoan
      (LoanContract.ApproveLoan
        (LoanContract.RequestLoan [] ["L1", "B1", "5000", "12"]).2
        ["L1", "LEN1"]).2
      ["L1", "2024-01-01"]).2
    ["L1", "5000"]).2

/-- Claim C6: every successful mutating transition after creation
(`ApproveLoan`, `DisburseLoan`, `RepayLoan`, `MarkAsDefaulted`,
`AddCollateral`) appends exactly one entry to the touched loan's
`AuditHistory` (the old history is kept as an unchanged initial segment) and
touches no other record; and the end-to-end scenario leaves status `Repaid`,
remaining balance `0` and exactly the three entries `"Loan Approved"`,
`"Loan Disbursed"`, `"Repayment of 5000.000000 made"` in order. -/
theorem C6_audit_trail :
    (∀ st args x st', LoanContract.ApproveLoan st args = (.success x, st') →
      ∃ loanID, auditAppends st st' loanID "Loan Approved") ∧
    (∀ st args x st', LoanContract.DisburseLoan st args = (.success x, st') →
      ∃ loanID, auditAppends st st' loanID "Loan Disbursed") ∧
    (∀ st args x st', LoanContract.RepayLoan st args = (.success x, st') →
      ∃ loanID r, auditAppends st st' loanID
        ("Repayment of " ++ formatFloat r ++ " made")) ∧
    (∀ st args x st', LoanContract.MarkAsDefaulted st args = (.success x, st') →
      ∃ loanID, auditAppends st st' loanID "Loan Defaulted") ∧
    (∀ st args x st', LoanContract.AddCollateral st args = (.success x, st') →
      ∃ loanID c, auditAppends st st' loanID ("Collateral added: " ++ c)) ∧
    ((e2eState.lookup "L1").map LoanContract.Loan.Status = some "Repaid" ∧
     (e2eState.lookup "L1").map LoanContract.Loan.RemainingBalance = some 0 ∧
     (e2eState.lookup "L1").map LoanContract.Loan.AuditHistory =
       some ["Loan Approved", "Loan Disbursed", "Repayment of 5000.000000 made"]) := by
  refine ⟨fun st args x st' h => ?_, fun st args x st' h => ?_, fun st args x st' h => ?_,
    fun st args x st' h => ?_, fun st args x st' h => ?_, by decide, by decide, by decide⟩
  · obtain ⟨loanID, lenderID, loan, -, hl, hs, -, rfl⟩ :=
      LoanContract.ApproveLoan_success st args x st' h
    exact ⟨loanID, loan, _, hl, lookup_put_self st loanID _, rfl,
      fun k hk => lookup_put_ne st loanID k _ hk⟩
  · obtain ⟨loanID, date, loan, -, hl, hs, -, rfl⟩ :=
      LoanContract.DisburseLoan_success st args x st' h
    exact ⟨loanID, loan, _, hl, lookup_put_self st loanID _, rfl,
      fun k hk => lookup_put_ne st loanID k _ hk⟩
  · obtain ⟨loanID, amountStr, r, loan, -, hp, hl, hs, -, rfl⟩ :=
      LoanContract.RepayLoan_success st args x st' h
    exact ⟨loanID, r, loan, _, hl, lookup_put_self st loanID _, rfl,
      fun k hk => lookup_put_ne st loanID k _ hk⟩
  · obtain ⟨loanID, loan, -, hl, hs, -, rfl⟩ :=
      LoanContract.MarkAsDefaulted_success st args x st' h
    exact ⟨loanID, loan, _, hl, lookup_put_self st loanID _, rfl,
      fun k hk => lookup_put_ne st loanID k _ hk⟩
  · obtain ⟨loanID, c, loan, -, hl, hs, -, rfl⟩ :=
      LoanContract.AddCollateral_success st args x st' h
    exact ⟨loanID, c, loan, _, hl, lookup_put_self st loanID _, rfl,
      fun k hk => lookup_put_ne st loanID k _ hk⟩

/-- Claim C6 witness: a concrete successful `ApproveLoan` appends exactly
the entry `"Loan Approved"`. -/
theorem C6_witness :
    ∃ loanID, auditAppends [("L1", mkLoan "Pending" 1000 1000)]
      (LoanContract.ApproveLoan [("L1", mkLoan "Pending" 1000 1000)] ["L1", "LEN1"]).2
      loanID "Loan Approved" :=
  C6_audit_trail.1 [("L1", mkLoan "Pending" 1000 1000)] ["L1", "LEN1"] none
    (LoanContract.ApproveLoan [("L1", mkLoan "Pending" 1000 1000)] ["L1", "LEN1"]).2
    (by decide)

theorem stepAllowed_refl (s : String) : stepAllowed s s = true := by
  simp [stepAllowed]

theorem lookup_put_cases {α : Type} (st : List (String × α)) (loanID k : String)
    (v l' : α) (h : (put st loanID v).lookup k = some l') :
    (k = loanID ∧ l' = v) ∨ (k ≠ loanID ∧ st.lookup k = some l') := by
  by_cases hk : k = loanID
  · subst hk
    rw [lookup_put_self] at h
    injection h with e
    exact Or.inl ⟨rfl, e.symm⟩
  · rw [lookup_put_ne st loanID k v hk] at h
    exact Or.inr ⟨hk, h⟩

/-- An operation only moves a stored status along a lifecycle edge (or
leaves it alone) on success, and never touches a terminally-statused
record. -/
def preservesLifecycle
    (op : LoanContract.Ledger → List String → LoanContract.Response × LoanContract.Ledger) :
    Prop :=
  ∀ st args x st' k l l', op st args = (.success x, st') →
    st.lookup k = some l → st'.lookup k = some l' →
    stepAllowed l.Status l'.Status = true ∧
    ((l.Status = "Repaid" ∨ l.Status = "Defaulted") → l' = l)

theorem approve_preserves : preservesLifecycle LoanContract.ApproveLoan := by
  intro st args x st' k l l' h hk hk'
  obtain ⟨loanID, lenderID, loan, -, hl, hs, -, rfl⟩ :=
    LoanContract.ApproveLoan_success st args x st' h
  rcases lookup_put_cases st loanID k _ l' hk' with ⟨rfl, rfl⟩ | ⟨hne, hsl⟩
  · rw [hl] at hk
    injection hk with e
    subst e
    refine ⟨by rw [hs]; show stepAllowed "Pending" "Approved" = true; decide, ?_⟩
    rintro (ht | ht) <;> exact absurd (ht.symm.trans hs) (by decide)
  · rw [hsl] at hk
    injection hk with e
    subst e
    exact ⟨stepAllowed_refl _, fun _ => rfl⟩

theorem disburse_preserves : preservesLifecycle LoanContract.DisburseLoan := by
  intro st args x st' k l l' h hk hk'
  obtain ⟨loanID, date, loan, -, hl, hs, -, rfl⟩ :=
    LoanContract.DisburseLoan_success st args x st' h
  rcases lookup_put_cases st loanID k _ l' hk' with ⟨rfl, rfl⟩ | ⟨hne, hsl⟩
  · rw [hl] at hk
    injection hk with e
    subst e
    refine ⟨by rw [hs]; show stepAllowed "Approved" "Active" = true; decide, ?_⟩
    rintro (ht | ht) <;> exact absurd (ht.symm.trans hs) (by decide)
  · rw [hsl] at hk
    injection hk with e
    subst e
    exact ⟨stepAllowed_refl _, fun _ => rfl⟩

theorem repay_preserves : preservesLifecycle LoanContract.RepayLoan := by
  intro st args x st' k l l' h hk hk'
  obtain ⟨loanID, amountStr, r, loan, -, hp, hl, hs, -, rfl⟩ :=
    LoanContract.RepayLoan_success st args x st' h
  rcases lookup_put_cases st loanID k _ l' hk' with ⟨rfl, rfl⟩ | ⟨hne, hsl⟩
  · rw [hl] at hk
    injection hk with e
    subst e
    refine ⟨?_, ?_⟩
    · rw [hs]
      show stepAllowed "Active"
        (if loan.RemainingBalance - r ≤ 0 then "Repaid" else "Active") = true
      by_cases hb : loan.RemainingBalance - r ≤ 0
      · rw [if_pos hb]; decide
      · rw [if_neg hb]; decide
    · rintro (ht | ht) <;> exact absurd (ht.symm.trans hs) (by decide)
  · rw [hsl] at hk
    injection hk with e
    subst e
    exact ⟨stepAllowed_refl _, fun _ => rfl⟩

theorem default_preserves : preservesLifecycle LoanContract.MarkAsDefaulted := by
  intro st args x st' k l l' h hk hk'
  obtain ⟨loanID, loan, -, hl, hs, -, rfl⟩ :=
    LoanContract.MarkAsDefaulted_success st args x st' h
  rcases lookup_put_cases st loanID k _ l' hk' with ⟨rfl, rfl⟩ | ⟨hne, hsl⟩
  · rw [hl] at hk
    injection hk with e
    subst e
    refine ⟨by rw [hs]; show stepAllowed "Active" "Defaulted" = true; decide, ?_⟩
    rintro (ht | ht) <;> exact absurd (ht.symm.trans hs) (by decide)
  · rw [hsl] at hk
    injection hk with e
    subst e
    exact ⟨stepAllowed_refl _, fun _ => rfl⟩

theorem collateral_preserves : preservesLifecycle LoanContract.AddCollateral := by
  intro st args x st' k l l' h hk hk'
  obtain ⟨loanID, c, loan, -, hl, hpa, -, rfl⟩ :=
    LoanContract.AddCollateral_success st args x st' h
  rcases lookup_put_cases st loanID k _ l' hk' with ⟨rfl, rfl⟩ | ⟨hne, hsl⟩
  · rw [hl] at hk
    injection hk with e
    subst e
    refine ⟨?_, ?_⟩
    · show stepAllowed loan.Status loan.Status = true
      exact stepAllowed_refl _
    · rcases hpa with hp | hp <;> rintro (ht | ht) <;>
        exact absurd (ht.symm.trans hp) (by decide)
  · rw [hsl] at hk
    injection hk with e
    subst e
    exact ⟨stepAllowed_refl _, fun _ => rfl⟩

theorem check_preserves : preservesLifecycle LoanContract.CheckLoanStatus := by
  intro st args x st' k l l' h hk hk'
  have h2 : st' = st :=
    ((LoanContract.CheckLoanStatus_state st args).symm.trans (congrArg Prod.snd h)).symm
  subst h2
  rw [hk] at hk'
  injection hk' with e
  subst e
  exact ⟨stepAllowed_refl _, fun _ => rfl⟩

theorem history_preserves : preservesLifecycle LoanContract.GetLoanHistory := by
  intro st args x st' k l l' h hk hk'
  have h2 : st' = st :=
    ((LoanContract.GetLoanHistory_state st args).symm.trans (congrArg Prod.snd h)).symm
  subst h2
  rw [hk] at hk'
  injection hk' with e
  subst e
  exact ⟨stepAllowed_refl _, fun _ => rfl⟩

/-- Claim C4 (amended): every successful operation other than `RequestLoan`
moves each stored status only along an edge of
`Pending -> Approved -> Active -> (Repaid | Defaulted)` or leaves it alone,
and never alters a record whose status is terminal (`Repaid`/`Defaulted`);
a successful `RequestLoan` stores a `Pending` record — but, having no
existence check, it may do so over ANY existing record, which is the sole
escape from a terminal state (see the counterexample). -/
theorem C4_lifecycle_amended :
    preservesLifecycle LoanContract.ApproveLoan ∧
    preservesLifecycle LoanContract.DisburseLoan ∧
    preservesLifecycle LoanContract.RepayLoan ∧
    preservesLifecycle LoanContract.MarkAsDefaulted ∧
    preservesLifecycle LoanContract.AddCollateral ∧
    preservesLifecycle LoanContract.CheckLoanStatus ∧
    preservesLifecycle LoanContract.GetLoanHistory ∧
    (∀ st args x st', LoanContract.RequestLoan st args = (.success x, st') →
      ∃ loanID loan', st'.lookup loanID = some loan' ∧ loan'.Status = "Pending") := by
  refine ⟨approve_preserves, disburse_preserves, repay_preserves, default_preserves,
    collateral_preserves, check_preserves, history_preserves,
    fun st args x st' h => ?_⟩
  obtain ⟨loanID, borrowerID, amountStr, durationStr, amount, duration, -, hp, hd, -, rfl⟩ :=
    LoanContract.RequestLoan_success st args x st' h
  exact ⟨loanID, _, lookup_put_self st loanID _, rfl⟩

/-- Claim C4 counterexample: `RequestLoan` on a loanId whose stored record
is `Defaulted` (a terminal state) succeeds and resets the record to
`Pending` — a successful operation that leaves a terminal state, refuting
the claim that no operation changes a `Repaid`/`Defaulted` loan. -/
theorem C4_counterexample :
    ({ mkLoan "Defaulted" 1000 600 with Defaulted := true } :
        LoanContract.Loan).Status = "Defaulted" ∧
    LoanContract.Invoke "RequestLoan" ["L1", "B2", "500", "6"]
        [("L1", { mkLoan "Defaulted" 1000 600 with Defaulted := true })] =
      (.success none,
        [("L1", { mkLoan "Pending" 500 500 with BorrowerID := "B2", Duration := 6 })]) ∧
    ({ mkLoan "Pending" 500 500 with BorrowerID := "B2", Duration := 6 } :
        LoanContract.Loan).Status = "Pending" :=
  ⟨rfl, by decide, rfl⟩

/-- Claim C4 witness: a concrete `ApproveLoan` transition `Pending ->
Approved` satisfies the lifecycle-edge property. -/
theorem C4_witness :
    stepAllowed (mkLoan "Pending" 1000 1000).Status
      ({ mkLoan "Pending" 1000 1000 with
        LenderID := "LEN1", Status := "Approved"
        AuditHistory := ["Loan Approved"] } : LoanContract.Loan).Status = true ∧
    (((mkLoan "Pending" 1000 1000).Status = "Repaid" ∨
        (mkLoan "Pending" 1000 1000).Status = "Defaulted") →
      ({ mkLoan "Pending" 1000 1000 with
        LenderID := "LEN1", Status := "Approved"
        AuditHistory := ["Loan Approved"] } : LoanContract.Loan) =
        mkLoan "Pending" 1000 1000) :=
  C4_lifecycle_amended.1 [("L1", mkLoan "Pending" 1000 1000)] ["L1", "LEN1"] none
    (put [("L1", mkLoan "Pending" 1000 1000)] "L1"
      { mkLoan "Pending" 1000 1000 with
        LenderID := "LEN1", Status := "Approved"
        AuditHistory := ["Loan Approved"] })
    "L1" (mkLoan "Pending" 1000 1000)
    { mkLoan "Pending" 1000 1000 with
      LenderID := "LEN1", Status := "Approved"
      AuditHistory := ["Loan Approved"] }
    (by decide) (by decide) (by decide)

/-- Claim C1 counterexample: in the shim-based `LoanContract`, repaying 400
then 700 on an `Active` loan of amount 1000 succeeds twice and leaves
`RemainingBalance = -100` (status `Repaid`), not the claimed clamped `0`:
lines 209-212 set `Status` but never clamp the stored balance. -/
theorem C1_counterexample :
    (LoanContract.RepayLoan [("L1", mkLoan "Active" 1000 1000)] ["L1", "400"]).1 =
      .success none ∧
    (LoanContract.RepayLoan
        (LoanContract.RepayLoan [("L1", mkLoan "Active" 1000 1000)] ["L1", "400"]).2
        ["L1", "700"]).1 = .success none ∧
    (((LoanContract.RepayLoan
        (LoanContract.RepayLoan [("L1", mkLoan "Active" 1000 1000)] ["L1", "400"]).2
        ["L1", "700"]).2.lookup "L1").map LoanContract.Loan.RemainingBalance =
      some (-100)) ∧
    (((LoanContract.RepayLoan
        (LoanContract.RepayLoan [("L1", mkLoan "Active" 1000 1000)] ["L1", "400"]).2
        ["L1", "700"]).2.lookup "L1").map LoanContract.Loan.Status = some "Repaid") ∧
    (-100 : ℚ) ≠ 0 :=
  ⟨by decide, by decide, by decide, by decide, by decide⟩

/-- Claim C1 (amended): a successful `RepayLoan` on an `Active` loan
subtracts the repayment from `RemainingBalance`; when the result is `≤ 0`
the contractapi `SmartContract.RepayLoan` clamps the stored balance to `0`
and sets status `Repaid` (so its 400-then-700 scenario ends at balance `0`,
status `Repaid`), while the shim-based `LoanContract.RepayLoan` sets status
`Repaid` but stores the raw, possibly negative, difference unclamped. -/
theorem C1_repay_amended :
    (∀ (st : SmartContract.Ledger) (loanID : String) (r : ℚ)
        (loan : SmartContract.Loan),
      List.lookup loanID st = some loan → loan.Status = "Active" →
      SmartContract.RepayLoan st loanID r =
        (none, put st loanID
          (if loan.RemainingBalance - r ≤ 0 then
            { loan with Status := "Repaid", RemainingBalance := 0 }
          else { loan with RemainingBalance := loan.RemainingBalance - r }))) ∧
    (∀ (st : LoanContract.Ledger) (loanID amountStr : String) (r : ℚ)
        (loan : LoanContract.Loan),
      parseFloat amountStr = some r →
      List.lookup loanID st = some loan → loan.Status = "Active" →
      LoanContract.RepayLoan st [loanID, amountStr] =
        (.success none, put st loanID { loan with
          RemainingBalance := loan.RemainingBalance - r
          Status := if loan.RemainingBalance - r ≤ 0 then "Repaid" else loan.Status
          AuditHistory := loan.AuditHistory ++
            ["Repayment of " ++ formatFloat r ++ " made"] })) ∧
    (((SmartContract.RepayLoan
        (SmartContract.RepayLoan [("L1", mkSCLoan "Active" 1000 1000)] "L1" 400).2
        "L1" 700).2.lookup "L1").map SmartContract.Loan.RemainingBalance = some 0 ∧
     ((SmartContract.RepayLoan
        (SmartContract.RepayLoan [("L1", mkSCLoan "Active" 1000 1000)] "L1" 400).2
        "L1" 700).2.lookup "L1").map SmartContract.Loan.Status = some "Repaid") :=
  ⟨fun st loanID r loan hl hs => SmartContract.SCRepayLoan_eq st loanID r loan hl hs,
   fun st loanID amountStr r loan hp hl hs =>
     LoanContract.RepayLoan_eq st loanID amountStr r loan hp hl hs,
   by decide, by decide⟩

/-- Claim C1 witness: a concrete overpaying `SmartContract.RepayLoan`
(balance 600, repayment 700). -/
theorem C1_witness :
    SmartContract.RepayLoan [("L1", mkSCLoan "Active" 1000 600)] "L1" 700 =
      (none, put [("L1", mkSCLoan "Active" 1000 600)] "L1"
        (if (mkSCLoan "Active" 1000 600).RemainingBalance - 700 ≤ 0 then
          { mkSCLoan "Active" 1000 600 with Status := "Repaid", RemainingBalance := 0 }
        else { mkSCLoan "Active" 1000 600 with
          RemainingBalance := (mkSCLoan "Active" 1000 600).RemainingBalance - 700 })) :=
  C1_repay_amended.1 [("L1", mkSCLoan "Active" 1000 600)] "L1" 700
    (mkSCLoan "Active" 1000 600) (by decide) (by decide)

/-- Claim C2 counterexample: the shim-based `LoanContract.RequestLoan`
performs no existence check: on a ledger already holding `"L1"` it returns
success (not an already-exists error) and overwrites the stored record. -/
theorem C2_counterexample :
    LoanContract.RequestLoan [("L1", mkLoan "Active" 1000 600)]
        ["L1", "B2", "500", "6"] =
      (.success none,
        [("L1", { mkLoan "Pending" 500 500 with BorrowerID := "B2", Duration := 6 })]) ∧
    some (mkLoan "Active" 1000 600) ≠
      some ({ mkLoan "Pending" 500 500 with BorrowerID := "B2", Duration := 6 }) :=
  ⟨by decide, by decide⟩

/-- Claim C2 (amended): the contractapi `SmartContract.RequestLoan` behaves
as claimed — it fails with the already-exists error and leaves the ledger
unchanged when `loanID` is present, and otherwise creates the loan with
status `Pending` and `RemainingBalance = amount`; the shim-based
`LoanContract.RequestLoan`, however, has no existence check and
unconditionally stores a fresh `Pending` record, overwriting any
existing one. -/
theorem C2_request_amended :
    (∀ (st : SmartContract.Ledger) (loanID borrowerID : String)
        (amount interestRate : ℚ) (duration : Int) (loan : SmartContract.Loan),
      List.lookup loanID st = some loan →
      SmartContract.RequestLoan st loanID borrowerID amount interestRate duration =
        (some ("the loan with ID " ++ loanID ++ " already exists"), st)) ∧
    (∀ (st : SmartContract.Ledger) (loanID borrowerID : String)
        (amount interestRate : ℚ) (duration : Int),
      List.lookup loanID st = none →
      SmartContract.RequestLoan st loanID borrowerID amount interestRate duration =
        (none, put st loanID
          { LoanID := loanID, BorrowerID := borrowerID, LenderID := ""
            Amount := amount, InterestRate := interestRate, Duration := duration
            Status := "Pending", DisbursementDate := "", RepaymentDue := 0
            RemainingBalance := amount, Defaulted := false })) ∧
    (∀ (st : LoanContract.Ledger) (loanID borrowerID amountStr durationStr : String)
        (amount : ℚ) (duration : Int),
      parseFloat amountStr = some amount → atoi durationStr = some duration →
      LoanContract.RequestLoan st [loanID, borrowerID, amountStr, durationStr] =
        (.success none, put st loanID
          { LoanID := loanID, BorrowerID := borrowerID, LenderID := ""
            Amount := amount, InterestRate := 0, Duration := duration
            Status := "Pending", DisbursementDate := "", RepaymentDue := 0
            RemainingBalance := amount, Collateral := "", Defaulted := false
            AuditHistory := [] })) :=
  ⟨fun st loanID borrowerID amount interestRate duration loan hl =>
     SmartContract.RequestLoan_present_eq st loanID borrowerID amount interestRate
       duration loan hl,
   fun st loanID borrowerID amount interestRate duration hl =>
     SmartContract.RequestLoan_absent_eq st loanID borrowerID amount interestRate
       duration hl,
   fun st loanID borrowerID amountStr durationStr amount duration hp hd =>
     LoanContract.RequestLoan_eq st loanID borrowerID amountStr durationStr
       amount duration hp hd⟩

/-- Claim C2 witness: duplicate creation rejected by
`SmartContract.RequestLoan` on an occupied id, and accepted on a fresh
ledger. -/
theorem C2_witness :
    SmartContract.RequestLoan [("L1", mkSCLoan "Pending" 1000 1000)] "L1" "B2" 500 0 6 =
      (some ("the loan with ID " ++ "L1" ++ " already exists"),
        [("L1", mkSCLoan "Pending" 1000 1000)]) ∧
    SmartContract.RequestLoan [] "L1" "B1" 1000 0 12 =
      (none, put [] "L1"
        { LoanID := "L1", BorrowerID := "B1", LenderID := ""
          Amount := 1000, InterestRate := 0, Duration := 12
          Status := "Pending", DisbursementDate := "", RepaymentDue := 0
          RemainingBalance := 1000, Defaulted := false }) :=
  ⟨C2_request_amended.1 [("L1", mkSCLoan "Pending" 1000 1000)] "L1" "B2" 500 0 6
     (mkSCLoan "Pending" 1000 1000) (by decide),
   C2_request_amended.2.1 [] "L1" "B1" 1000 0 12 (by decide)⟩

/-- Claim C3 counterexample: a negative repayment of `-50` on an `Active`
`SmartContract` loan with `amount = 1000`, `remainingBalance = 1000`
succeeds and drives the balance to `1050`, strictly above the principal —
`remainingBalance ∈ [0, amount]` does not hold for all repayment amounts. -/
theorem C3_counterexample :
    SmartContract.RepayLoan [("L1", mkSCLoan "Active" 1000 1000)] "L1" (-50) =
      (none, [("L1", { mkSCLoan "Active" 1000 1000 with RemainingBalance := 1050 })]) ∧
    ¬((1050 : ℚ) ≤ (mkSCLoan "Active" 1000 1000).Amount) :=
  ⟨by decide, by decide⟩

/-- Claim C3 (amended): after a `SmartContract.RepayLoan` on an `Active`
loan the stored balance is never negative (the clamp), the principal field
is unchanged, and the upper bound `remainingBalance ≤ amount` is preserved
provided the repayment is non-negative and the bound held before; negative
repayments can exceed the principal (see the counterexample), and the
shim-based `LoanContract.RepayLoan` has no clamp at all (see claim C1). -/
theorem C3_balance_amended (st : SmartContract.Ledger) (loanID : String) (r : ℚ)
    (loan : SmartContract.Loan) (hl : List.lookup loanID st = some loan)
    (hs : loan.Status = "Active") :
    ∃ loan', ((SmartContract.RepayLoan st loanID r).2).lookup loanID = some loan' ∧
      loan'.Amount = loan.Amount ∧ 0 ≤ loan'.RemainingBalance ∧
      (0 ≤ r → 0 ≤ loan.RemainingBalance → loan.RemainingBalance ≤ loan.Amount →
        loan'.RemainingBalance ≤ loan.Amount) := by
  rw [SmartContract.SCRepayLoan_eq st loanID r loan hl hs]
  by_cases hb : loan.RemainingBalance - r ≤ 0
  · rw [if_pos hb]
    refine ⟨_, lookup_put_self st loanID _, rfl, ?_, fun _ h0 hba => ?_⟩
    · show (0 : ℚ) ≤ 0
      exact le_refl 0
    · show (0 : ℚ) ≤ loan.Amount
      exact le_trans h0 hba
  · rw [if_neg hb]
    push_neg at hb
    refine ⟨_, lookup_put_self st loanID _, rfl, ?_, fun hr h0 hba => ?_⟩
    · show (0 : ℚ) ≤ loan.RemainingBalance - r
      exact le_of_lt hb
    · show loan.RemainingBalance - r ≤ loan.Amount
      linarith

/-- Claim C3 witness: a concrete in-range repayment (balance 600, repay
100, amount 1000) keeps the balance in `[0, amount]`. -/
theorem C3_witness :
    ∃ loan', ((SmartContract.RepayLoan [("L1", mkSCLoan "Active" 1000 600)]
        "L1" 100).2).lookup "L1" = some loan' ∧
      loan'.Amount = (mkSCLoan "Active" 1000 600).Amount ∧
      0 ≤ loan'.RemainingBalance ∧
      (0 ≤ (100 : ℚ) → 0 ≤ (mkSCLoan "Active" 1000 600).RemainingBalance →
        (mkSCLoan "Active" 1000 600).RemainingBalance ≤ (mkSCLoan "Active" 1000 600).Amount →
        loan'.RemainingBalance ≤ (mkSCLoan "Active" 1000 600).Amount) :=
  C3_balance_amended [("L1", mkSCLoan "Active" 1000 600)] "L1" 100
    (mkSCLoan "Active" 1000 600) (by decide) (by decide)
